import Mathlib

/-!
Verification of the judging engine of the CodeMaster online judge.

The development shallowly embeds the local-process ("non-Docker") execution
path of `problems/code_runner.py` (`SecureCodeRunner`) and the judging
orchestrator of `submissions/judge.py` (`SecureCodeJudge`).  Subprocess and
compiler invocations are abstracted as oracle parameters (a `ProcResult`
value for a run step, a `String → Int × String` function for a compile
step), so every theorem quantifies over all possible backend behaviours.

Python's `f"{dt:.3f}s"` execution-time strings (written by the runner and
parsed back to `float` by the judge) are modelled by carrying the parsed
numeric value (`ℚ`) directly; a timeout result, which in the source carries
no `execution_time` key at all, carries `none`.
-/

/-- Result dictionary returned by `SecureCodeRunner.run` and the per-language
`_run_*` helpers in `problems/code_runner.py`.  A key absent from the Python
dict is `none`. -/
structure RunnerResult where
  success : Bool
  output : Option String := none
  error : Option String := none
  error_type : Option String := none
  execution_time : Option ℚ := none
deriving Repr, DecidableEq

/-- Outcome of the single `subprocess.run` call that executes the program:
it either completes with an exit code, captured stdout/stderr and an elapsed
wall-clock time, raises `subprocess.TimeoutExpired`, or raises some other
exception. -/
inductive ProcResult where
  | completed (returncode : Int) (stdout stderr : String) (elapsed : ℚ)
  | timeoutExpired
  | exception (msg : String)
deriving Repr, DecidableEq

/-- Python's `str.strip()` with no argument: remove leading and trailing
whitespace.  Implemented structurally over the character list so that it
evaluates on concrete inputs. -/
def pyStrip (s : String) : String :=
  String.mk (((s.data.dropWhile Char.isWhitespace).reverse.dropWhile Char.isWhitespace).reverse)

/-- Mapping of a finished `subprocess.run` execution step to a result dict.
This block appears verbatim in `_run_python`, and again after the compile
step in `_run_cpp`, `_run_java` and `_run_c`
(`problems/code_runner.py`, lines 76-112 for `_run_python`). -/
def mapRunProc (time_limit : ℚ) (proc : ProcResult) : RunnerResult :=
  match proc with
  | .completed rc out err dt =>
      if rc = 0 then
        { success := true, output := some (pyStrip out), execution_time := some dt }
      else
        { success := false,
          error := some (if pyStrip err = "" then "Runtime error occurred" else pyStrip err),
          error_type := some "runtime_error" }
  | .timeoutExpired =>
      { success := false,
        error := some ("⏰ Time Limit Exceeded: Execution took longer than "
          ++ toString time_limit ++ "s"),
        error_type := some "timeout" }
  | .exception e =>
      { success := false, error := some ("❌ Runtime Error: " ++ e),
        error_type := some "runtime_error" }

/-- `SecureCodeRunner._run_python`: writes the source file and performs a
single execution step. -/
def runPython (time_limit : ℚ) (proc : ProcResult) : RunnerResult :=
  mapRunProc time_limit proc

/-- `SecureCodeRunner._preprocess_cpp_code`: pure text substitution expanding
the `bits/stdc++.h` convenience include. -/
def preprocessCppCode (code : String) : String :=
  if (code.splitOn "#include<bits/stdc++.h>").length > 1 then
    code.replace "#include<bits/stdc++.h>"
      ("#include <iostream>\n#include <vector>\n#include <string>\n#include <algorithm>\n#include <map>\n#include <set>\n#include <queue>\n#include <stack>\n#include <cmath>\n#include <cstring>\n#include <cstdio>\n#include <cstdlib>\n#include <climits>\n#include <cassert>\n#include <numeric>\n#include <unordered_map>\n#include <unordered_set>\n#include <bitset>\n#include <limits>\n")
  else code

/-- `SecureCodeRunner._run_cpp`: preprocess, compile (oracle `compile` is
applied to the materialised source text and returns the compiler's exit code
and stderr), then execute.  A non-zero compile exit is a `compilation_error`
and the run step is skipped. -/
def runCpp (time_limit : ℚ) (code : String) (compile : String → Int × String)
    (proc : ProcResult) : RunnerResult :=
  let src := preprocessCppCode code
  if (compile src).1 ≠ 0 then
    { success := false, error := some ("🔴 Compilation Error:\n" ++ (compile src).2),
      error_type := some "compilation_error" }
  else mapRunProc time_limit proc

/-- `SecureCodeRunner._run_c`: compile `solution.c`, then execute. -/
def runC (time_limit : ℚ) (code : String) (compile : String → Int × String)
    (proc : ProcResult) : RunnerResult :=
  if (compile code).1 ≠ 0 then
    { success := false, error := some ("🔴 Compilation Error:\n" ++ (compile code).2),
      error_type := some "compilation_error" }
  else mapRunProc time_limit proc

/-- A word character of the regex class `\w`: letters, digits, underscore. -/
def isWordChar (c : Char) : Bool :=
  c.isAlphanum || c = '_'

/-- Tail of a match of `\s+(\w+)`: at least one whitespace character, then
the greedy capture of at least one word character.  Since `\s` and `\w` are
disjoint, taking the maximal whitespace run first is exact. -/
def wsThenWord (l : List Char) : Option (List Char) :=
  match l with
  | [] => none
  | c :: cs =>
      if c.isWhitespace then
        let w := (cs.dropWhile Char.isWhitespace).takeWhile isWordChar
        if w = [] then none else some w
      else none

/-- Attempt to match `class\s+(\w+)` at the head of the character list. -/
def matchClassAt (l : List Char) : Option (List Char) :=
  match l with
  | 'c' :: 'l' :: 'a' :: 's' :: 's' :: rest => wsThenWord rest
  | _ => none

/-- Leftmost match: try each start position in order. -/
def findClassAux (l : List Char) : Option (List Char) :=
  match l with
  | [] => none
  | _ :: cs =>
      match matchClassAt l with
      | some w => some w
      | none => findClassAux cs

/-- `re.search(r"class\s+(\w+)", code)` in `SecureCodeRunner._run_java`:
capture group of the leftmost match, if any. -/
def findClassName (code : String) : Option String :=
  (findClassAux code.data).map String.mk

/-- `SecureCodeRunner._run_java`: derive the class name from the first class
declaration; without one, report a `compilation_error` immediately.
Otherwise compile `{cls}.java` (oracle applied to that filename) and, on
exit code 0, execute. -/
def runJava (time_limit : ℚ) (code : String) (compile : String → Int × String)
    (proc : ProcResult) : RunnerResult :=
  match findClassName code with
  | none =>
      { success := false, error := some "🔴 Compilation Error: No class found in Java code",
        error_type := some "compilation_error" }
  | some cls =>
      if (compile (cls ++ ".java")).1 ≠ 0 then
        { success := false, error := some ("🔴 Compilation Error:\n" ++ (compile (cls ++ ".java")).2),
          error_type := some "compilation_error" }
      else mapRunProc time_limit proc

/-- The result returned by `SecureCodeRunner.run` for empty (after stripping)
stdin, before the temporary directory is created and before any language
dispatch. -/
def invalidInputResult : RunnerResult :=
  { success := false, error := some "⚠️ Invalid Test Case: No input provided",
    error_type := some "invalid_input" }

/-- The result returned by `SecureCodeRunner.run` for a language tag that is
none of python/cpp/java/c. -/
def unsupportedLanguageResult (language : String) : RunnerResult :=
  { success := false, error := some ("Unsupported language: " ++ language),
    error_type := some "system_error" }

/-- `SecureCodeRunner.run` in local-process mode (`docker_client is None`,
`problems/code_runner.py` lines 39-67): reject empty stdin up front, then
dispatch on the language tag with an if/elif chain; an unrecognised tag
yields a `system_error`. -/
def SecureCodeRunner.run (language code input_data : String) (time_limit : ℚ)
    (compile : String → Int × String) (proc : ProcResult) : RunnerResult :=
  if pyStrip input_data = "" then invalidInputResult
  else if language = "python" then runPython time_limit proc
  else if language = "cpp" then runCpp time_limit code compile proc
  else if language = "java" then runJava time_limit code compile proc
  else if language = "c" then runC time_limit code compile proc
  else unsupportedLanguageResult language

/-- One test case, as loaded from the persistence layer (`TestCase` rows,
ordered by ascending id before judging starts). -/
structure TestCase where
  input_data : String
  expected_output : String
deriving Repr, DecidableEq

/-- Per-case dictionary returned by `SecureCodeJudge._run_single_test_case`
(`submissions/judge.py`, non-Docker branch).  `execution_time` holds the
parsed value of the `"<seconds>s"` string. -/
structure CaseResult where
  status : String
  output : String
  error : String
  execution_time : ℚ
  memory_used : ℕ
deriving Repr, DecidableEq

/-- The `error_type_map` dictionary of `_run_single_test_case` with its
`.get(error_type, "Runtime Error")` default. -/
def error_type_map (error_type : String) : String :=
  if error_type = "compilation_error" then "Compilation Error"
  else if error_type = "runtime_error" then "Runtime Error"
  else if error_type = "timeout_error" then "Time Limit Exceeded"
  else if error_type = "timeout" then "Time Limit Exceeded"
  else if error_type = "system_error" then "System Error"
  else if error_type = "invalid_input" then "Invalid Input"
  else "Runtime Error"

/-- `SecureCodeJudge._run_single_test_case`, non-Docker branch
(`submissions/judge.py` lines 134-181): wrap the runner's result dict into
the judge's per-case dict.  A failed run reports `"0.000s"` (that is, `0`)
as its execution time; memory is never measured in this mode. -/
def runSingleTestCase (r : RunnerResult) : CaseResult :=
  if r.success then
    { status := "Accepted", output := r.output.getD "", error := "",
      execution_time := r.execution_time.getD 0, memory_used := 0 }
  else
    { status := error_type_map (r.error_type.getD "runtime_error"),
      output := r.output.getD "", error := r.error.getD "Unknown error",
      execution_time := 0, memory_used := 0 }

/-- Fields of the `Submission` record written by the judge.  A fresh
submission starts as `Pending` with empty output/error; the unset nullable
numeric fields are modelled as `0`. -/
structure SubmissionState where
  status : String := "Pending"
  output : String := ""
  error : String := ""
  execution_time : ℚ := 0
  memory_used : ℕ := 0
  test_cases_passed : ℕ := 0
  test_cases_total : ℕ := 0
deriving Repr, DecidableEq

/-- The `for test_case in test_cases` loop of
`SecureCodeJudge._run_all_test_cases` (`submissions/judge.py` lines 79-113).
`exec` abstracts the executor invocation for one test case; `total` is
`test_cases.count()`; `tt`, `mm`, `pass` carry `total_time`, `max_memory`
and `passed_count`.  Besides the final submission state, the model returns
the list of test cases whose executor was actually invoked. -/
def judgeLoop (exec : TestCase → RunnerResult) (total : ℕ) :
    ℚ → ℕ → ℕ → List TestCase → SubmissionState × List TestCase
  | tt, mm, pass, [] =>
      ({ status := "Accepted", output := "", error := "",
         execution_time := tt, memory_used := mm,
         test_cases_passed := pass, test_cases_total := total }, [])
  | tt, mm, pass, tc :: rest =>
      if (runSingleTestCase (exec tc)).status = "Accepted" ∧
          pyStrip ((runSingleTestCase (exec tc)).output) = pyStrip tc.expected_output then
        let r := judgeLoop exec total (tt + (runSingleTestCase (exec tc)).execution_time)
          (max mm (runSingleTestCase (exec tc)).memory_used) (pass + 1) rest
        (r.1, tc :: r.2)
      else
        ({ status := if (runSingleTestCase (exec tc)).status = "Accepted" then "Wrong Answer"
             else (runSingleTestCase (exec tc)).status,
           output := pyStrip ((runSingleTestCase (exec tc)).output),
           error := (runSingleTestCase (exec tc)).error,
           execution_time := tt + (runSingleTestCase (exec tc)).execution_time,
           memory_used := max mm (runSingleTestCase (exec tc)).memory_used,
           test_cases_passed := pass, test_cases_total := total }, [tc])

/-- `SecureCodeJudge._run_all_test_cases` (`submissions/judge.py` lines
66-113): with no test cases, a `Runtime Error` verdict and no executor
invocation; otherwise the sequential loop over the cases in stable order. -/
def runAllTestCases (exec : TestCase → RunnerResult) (tcs : List TestCase) :
    SubmissionState × List TestCase :=
  match tcs with
  | [] => ({ status := "Runtime Error", output := "", error := "No test cases found for this problem.",
             execution_time := 0, memory_used := 0,
             test_cases_passed := 0, test_cases_total := 0 }, [])
  | _ => judgeLoop exec tcs.length 0 0 0 tcs

/-- The verdict `_run_all_test_cases` stores for the first failing case:
`Wrong Answer` when the run itself was accepted but the output differed,
otherwise the `error_type_map` image of the runner's error type. -/
def mappedStatus (r : RunnerResult) : String :=
  if r.success then "Wrong Answer" else error_type_map (r.error_type.getD "runtime_error")

/-- A test case passes when the executor reports success and the trimmed
output equals the trimmed expected output. -/
def caseOK (exec : TestCase → RunnerResult) (tc : TestCase) : Bool :=
  (exec tc).success && (pyStrip ((exec tc).output.getD "") == pyStrip tc.expected_output)

/-- How `SecureCodeJudge.judge` finished: `_run_all_test_cases` either
returned normally with the submission in state `s`, or raised with message
`msg` leaving the submission in some intermediate state `mid`. -/
inductive JudgeOutcome where
  | ok (s : SubmissionState)
  | exc (mid : SubmissionState) (msg : String)
deriving Repr, DecidableEq

/-- Submission record after `SecureCodeJudge.judge` returns: its state plus
whether `judged_at` was stamped and the record saved. -/
structure JudgedSubmission where
  state : SubmissionState
  judged_at_set : Bool
  saved : Bool
deriving Repr, DecidableEq

/-- `SecureCodeJudge.judge` (`submissions/judge.py` lines 52-64): the
try/except converts any exception into a `Runtime Error` verdict with a
generic message; the finally-block stamps `judged_at` and saves on every
path.  Totality of this function is the model of "never raises past its own
boundary". -/
def SecureCodeJudge.judge (outcome : JudgeOutcome) : JudgedSubmission :=
  match outcome with
  | .ok s => { state := s, judged_at_set := true, saved := true }
  | .exc mid msg =>
      let s := { mid with
        status := "Runtime Error"
        error := "An unexpected judging system error occurred: " ++ msg }
      { state := s, judged_at_set := true, saved := true }

/-- `Submission.STATUS_CHOICES` (`submissions/models.py` lines 8-16): the
declared verdict vocabulary. -/
def STATUS_CHOICES : List String :=
  ["Pending", "Accepted", "Wrong Answer", "Time Limit Exceeded",
   "Runtime Error", "Compilation Error", "Memory Limit Exceeded"]

lemma error_type_map_ne_accepted (s : String) : error_type_map s ≠ "Accepted" := by
  unfold error_type_map
  split <;> first | decide | (split <;> first | decide | (split <;> first | decide | (split <;> first | decide | (split <;> first | decide | (split <;> decide)))))

lemma runSingleTestCase_status_accepted (r : RunnerResult) :
    (runSingleTestCase r).status = "Accepted" ↔ r.success = true := by
  cases hr : r.success <;>
    simp [runSingleTestCase, hr, error_type_map_ne_accepted]

lemma runSingleTestCase_status_of_fail (r : RunnerResult) (h : r.success = false) :
    (runSingleTestCase r).status = error_type_map (r.error_type.getD "runtime_error") := by
  simp [runSingleTestCase, h]

lemma runSingleTestCase_output (r : RunnerResult) :
    (runSingleTestCase r).output = r.output.getD "" := by
  cases hr : r.success <;> simp [runSingleTestCase, hr]

lemma runSingleTestCase_memory (r : RunnerResult) :
    (runSingleTestCase r).memory_used = 0 := by
  cases hr : r.success <;> simp [runSingleTestCase, hr]

lemma caseOK_iff (exec : TestCase → RunnerResult) (tc : TestCase) :
    caseOK exec tc = true ↔
      (exec tc).success = true ∧ pyStrip ((exec tc).output.getD "") = pyStrip tc.expected_output := by
  simp [caseOK, Bool.and_eq_true]

lemma judgeLoop_cond_iff (exec : TestCase → RunnerResult) (tc : TestCase) :
    ((runSingleTestCase (exec tc)).status = "Accepted" ∧
      pyStrip ((runSingleTestCase (exec tc)).output) = pyStrip tc.expected_output) ↔
    caseOK exec tc = true := by
  rw [runSingleTestCase_status_accepted, runSingleTestCase_output, caseOK_iff]

lemma judgeLoop_cons_ok (exec : TestCase → RunnerResult) (total : ℕ)
    (tt : ℚ) (mm pass : ℕ) (tc : TestCase) (rest : List TestCase)
    (h : caseOK exec tc = true) :
    judgeLoop exec total tt mm pass (tc :: rest) =
      ((judgeLoop exec total (tt + (runSingleTestCase (exec tc)).execution_time) mm (pass + 1) rest).1,
       tc :: (judgeLoop exec total (tt + (runSingleTestCase (exec tc)).execution_time) mm (pass + 1) rest).2) := by
  rw [judgeLoop, if_pos ((judgeLoop_cond_iff exec tc).mpr h), runSingleTestCase_memory,
    Nat.max_zero]

lemma judgeLoop_cons_fail (exec : TestCase → RunnerResult) (total : ℕ)
    (tt : ℚ) (mm pass : ℕ) (tc : TestCase) (rest : List TestCase)
    (h : caseOK exec tc = false) :
    judgeLoop exec total tt mm pass (tc :: rest) =
      ({ status := mappedStatus (exec tc),
         output := pyStrip ((exec tc).output.getD ""),
         error := (runSingleTestCase (exec tc)).error,
         execution_time := tt + (runSingleTestCase (exec tc)).execution_time,
         memory_used := mm,
         test_cases_passed := pass, test_cases_total := total }, [tc]) := by
  have hcond : ¬ ((runSingleTestCase (exec tc)).status = "Accepted" ∧
      pyStrip ((runSingleTestCase (exec tc)).output) = pyStrip tc.expected_output) := by
    rw [judgeLoop_cond_iff]
    simp [h]
  rw [judgeLoop, if_neg hcond, runSingleTestCase_memory, Nat.max_zero,
    runSingleTestCase_output]
  cases hs : (exec tc).success
  · rw [runSingleTestCase_status_of_fail _ hs]
    simp [mappedStatus, hs, error_type_map_ne_accepted]
  · simp [mappedStatus, hs, (runSingleTestCase_status_accepted (exec tc)).mpr hs]

lemma judgeLoop_all_ok (exec : TestCase → RunnerResult) (total : ℕ) :
    ∀ (tcs : List TestCase) (tt : ℚ) (mm pass : ℕ),
    (∀ tc ∈ tcs, caseOK exec tc = true) →
    judgeLoop exec total tt mm pass tcs =
      ({ status := "Accepted", output := "", error := "",
         execution_time := tt + (tcs.map fun tc => (runSingleTestCase (exec tc)).execution_time).sum,
         memory_used := mm,
         test_cases_passed := pass + tcs.length, test_cases_total := total }, tcs)
  | [], tt, mm, pass, _ => by simp [judgeLoop]
  | tc :: rest, tt, mm, pass, h => by
    rw [judgeLoop_cons_ok exec total tt mm pass tc rest (h tc (List.mem_cons_self tc rest)),
      judgeLoop_all_ok exec total rest _ mm (pass + 1)
        (fun x hx => h x (List.mem_cons_of_mem tc hx))]
    simp only [List.map_cons, List.sum_cons, List.length_cons]
    rw [add_assoc, show pass + 1 + rest.length = pass + (rest.length + 1) from by omega]

lemma judgeLoop_first_fail (exec : TestCase → RunnerResult) (total : ℕ) :
    ∀ (pre : List TestCase) (tc : TestCase) (rest : List TestCase) (tt : ℚ) (mm pass : ℕ),
    (∀ x ∈ pre, caseOK exec x = true) → caseOK exec tc = false →
    judgeLoop exec total tt mm pass (pre ++ tc :: rest) =
      ({ status := mappedStatus (exec tc),
         output := pyStrip ((exec tc).output.getD ""),
         error := (runSingleTestCase (exec tc)).error,
         execution_time := tt + ((pre.map fun x => (runSingleTestCase (exec x)).execution_time).sum
           + (runSingleTestCase (exec tc)).execution_time),
         memory_used := mm,
         test_cases_passed := pass + pre.length, test_cases_total := total }, pre ++ [tc])
  | [], tc, rest, tt, mm, pass, _, hfail => by
    rw [List.nil_append, judgeLoop_cons_fail exec total tt mm pass tc rest hfail]
    simp
  | x :: pre, tc, rest, tt, mm, pass, hpre, hfail => by
    rw [List.cons_append,
      judgeLoop_cons_ok exec total tt mm pass x (pre ++ tc :: rest)
        (hpre x (List.mem_cons_self x pre)),
      judgeLoop_first_fail exec total pre tc rest _ mm (pass + 1)
        (fun y hy => hpre y (List.mem_cons_of_mem x hy)) hfail]
    simp only [List.map_cons, List.sum_cons, List.length_cons, List.cons_append]
    rw [show tt + (runSingleTestCase (exec x)).execution_time +
          ((List.map (fun y => (runSingleTestCase (exec y)).execution_time) pre).sum +
            (runSingleTestCase (exec tc)).execution_time) =
        tt + ((runSingleTestCase (exec x)).execution_time +
            (List.map (fun y => (runSingleTestCase (exec y)).execution_time) pre).sum +
          (runSingleTestCase (exec tc)).execution_time) from by ring,
      show pass + 1 + pre.length = pass + (pre.length + 1) from by omega]

lemma runAllTestCases_cons (exec : TestCase → RunnerResult) (t : TestCase) (ts : List TestCase) :
    runAllTestCases exec (t :: ts) = judgeLoop exec (t :: ts).length 0 0 0 (t :: ts) := rfl

lemma mappedStatus_ne_accepted (r : RunnerResult) : mappedStatus r ≠ "Accepted" := by
  unfold mappedStatus
  split
  · decide
  · exact error_type_map_ne_accepted _

lemma dropWhile_head_false {α : Type} (p : α → Bool) :
    ∀ (l : List α) (x : α) (xs : List α), l.dropWhile p = x :: xs → p x = false
  | [], x, xs, h => by simp [List.dropWhile] at h
  | a :: as, x, xs, h => by
      by_cases ha : p a = true
      · rw [List.dropWhile_cons_of_pos ha] at h
        exact dropWhile_head_false p as x xs h
      · rw [List.dropWhile_cons_of_neg ha] at h
        cases h
        simpa using ha

/-- C1: for a submission with a non-empty ordered test-case set, the
terminal verdict is `Accepted` iff every case's run succeeded and its
trimmed stdout equals the trimmed expected output; otherwise the verdict is
the mapped outcome of the first failing case (`Wrong Answer` when the run
succeeded but the output differed, via `mappedStatus`), the executor is
invoked exactly on the passing prefix plus that first failing case (no
later case is run), `test_cases_total` is the full set size, and
`test_cases_passed` counts the cases that matched before the stop. -/
theorem judge_verdict_invariant (exec : TestCase → RunnerResult) (tcs : List TestCase)
    (hne : tcs ≠ []) :
    (((runAllTestCases exec tcs).1.status = "Accepted") ↔
      ∀ tc ∈ tcs, (exec tc).success = true ∧
        pyStrip ((exec tc).output.getD "") = pyStrip tc.expected_output)
    ∧ (runAllTestCases exec tcs).1.test_cases_total = tcs.length
    ∧ (runAllTestCases exec tcs).2 =
        tcs.takeWhile (caseOK exec) ++ (tcs.dropWhile (caseOK exec)).take 1
    ∧ (runAllTestCases exec tcs).1.test_cases_passed = (tcs.takeWhile (caseOK exec)).length
    ∧ ∀ tc rest, tcs.dropWhile (caseOK exec) = tc :: rest →
        (runAllTestCases exec tcs).1.status = mappedStatus (exec tc) := by
  obtain ⟨t, ts, rfl⟩ : ∃ t ts, tcs = t :: ts := by
    cases tcs with
    | nil => exact absurd rfl hne
    | cons t ts => exact ⟨t, ts, rfl⟩
  rw [runAllTestCases_cons]
  by_cases hall : ∀ tc ∈ t :: ts, caseOK exec tc = true
  · have hdw : (t :: ts).dropWhile (caseOK exec) = [] := List.dropWhile_eq_nil_iff.mpr hall
    have htw : (t :: ts).takeWhile (caseOK exec) = t :: ts := List.takeWhile_eq_self_iff.mpr hall
    rw [judgeLoop_all_ok exec (t :: ts).length (t :: ts) 0 0 0 hall, hdw, htw]
    refine ⟨iff_of_true rfl (fun tc htc => (caseOK_iff exec tc).mp (hall tc htc)),
      rfl, by simp, by simp, ?_⟩
    intro tc rest h
    cases h
  · obtain ⟨tc, rest, hdw⟩ : ∃ tc rest, (t :: ts).dropWhile (caseOK exec) = tc :: rest := by
      cases h : (t :: ts).dropWhile (caseOK exec) with
      | nil => exact absurd (List.dropWhile_eq_nil_iff.mp h) hall
      | cons a as => exact ⟨a, as, rfl⟩
    have hfail : caseOK exec tc = false := dropWhile_head_false _ _ _ _ hdw
    have hpre : ∀ x ∈ (t :: ts).takeWhile (caseOK exec), caseOK exec x = true :=
      fun x hx => List.mem_takeWhile_imp hx
    have hsplit : (t :: ts).takeWhile (caseOK exec) ++ tc :: rest = t :: ts := by
      rw [← hdw, List.takeWhile_append_dropWhile]
    have htc_mem : tc ∈ t :: ts := by
      rw [← hsplit]
      exact List.mem_append_right _ (List.mem_cons_self _ _)
    have hrun : judgeLoop exec (t :: ts).length 0 0 0 (t :: ts) =
        ({ status := mappedStatus (exec tc),
           output := pyStrip ((exec tc).output.getD ""),
           error := (runSingleTestCase (exec tc)).error,
           execution_time := 0 + ((((t :: ts).takeWhile (caseOK exec)).map
               fun x => (runSingleTestCase (exec x)).execution_time).sum
             + (runSingleTestCase (exec tc)).execution_time),
           memory_used := 0,
           test_cases_passed := 0 + ((t :: ts).takeWhile (caseOK exec)).length,
           test_cases_total := (t :: ts).length },
         (t :: ts).takeWhile (caseOK exec) ++ [tc]) := by
      conv_lhs =>
        arg 6
        rw [← hsplit]
      exact judgeLoop_first_fail exec (t :: ts).length ((t :: ts).takeWhile (caseOK exec))
        tc rest 0 0 0 hpre hfail
    rw [hrun]
    refine ⟨iff_of_false (mappedStatus_ne_accepted _) ?_, rfl, ?_, by simp, ?_⟩
    · intro hR
      rw [(caseOK_iff exec tc).mpr (hR tc htc_mem)] at hfail
      cases hfail
    · rw [hdw]
      simp
    · intro tc' rest' h
      rw [hdw] at h
      injection h with h1 _
      rw [h1]

/-- Concrete three-case scenario used to witness the judging invariant:
case 2 produces the wrong output. -/
def tcsC1 : List TestCase := [⟨"1", "a"⟩, ⟨"2", "b"⟩, ⟨"3", "c"⟩]

/-- Executor behaviour for the witness scenario: every run succeeds, but the
case with input `"2"` prints the wrong answer. -/
def execC1 : TestCase → RunnerResult := fun tc =>
  { success := true,
    output := some (if tc.input_data == "2" then "WRONG" else tc.expected_output),
    execution_time := some 1 }

theorem judge_verdict_invariant_witness :
    (runAllTestCases execC1 tcsC1).1.status = "Wrong Answer"
    ∧ (runAllTestCases execC1 tcsC1).1.test_cases_passed = 1
    ∧ (runAllTestCases execC1 tcsC1).1.test_cases_total = 3
    ∧ (runAllTestCases execC1 tcsC1).2 = [⟨"1", "a"⟩, ⟨"2", "b"⟩] := by
  have h := judge_verdict_invariant execC1 tcsC1 (by decide)
  refine ⟨?_, ?_, ?_, ?_⟩
  · have h5 := h.2.2.2.2 ⟨"2", "b"⟩ [⟨"3", "c"⟩] (by decide)
    rw [h5]
    decide
  · rw [h.2.2.2.1]
    decide
  · rw [h.2.1]
    decide
  · rw [h.2.2.1]
    decide

/-- C5: the execution time recorded on the submission is the running sum of
the per-case elapsed times of exactly the attempted test cases (the
passing prefix plus the stopping case), not a maximum and not a single
case's time. -/
theorem execution_time_is_sum_of_attempted (exec : TestCase → RunnerResult)
    (tcs : List TestCase) (hne : tcs ≠ []) :
    (runAllTestCases exec tcs).1.execution_time =
      (((runAllTestCases exec tcs).2).map
        fun tc => (runSingleTestCase (exec tc)).execution_time).sum := by
  obtain ⟨t, ts, rfl⟩ : ∃ t ts, tcs = t :: ts := by
    cases tcs with
    | nil => exact absurd rfl hne
    | cons t ts => exact ⟨t, ts, rfl⟩
  rw [runAllTestCases_cons]
  by_cases hall : ∀ tc ∈ t :: ts, caseOK exec tc = true
  · rw [judgeLoop_all_ok exec (t :: ts).length (t :: ts) 0 0 0 hall]
    simp
  · obtain ⟨tc, rest, hdw⟩ : ∃ tc rest, (t :: ts).dropWhile (caseOK exec) = tc :: rest := by
      cases h : (t :: ts).dropWhile (caseOK exec) with
      | nil => exact absurd (List.dropWhile_eq_nil_iff.mp h) hall
      | cons a as => exact ⟨a, as, rfl⟩
    have hfail : caseOK exec tc = false := dropWhile_head_false _ _ _ _ hdw
    have hpre : ∀ x ∈ (t :: ts).takeWhile (caseOK exec), caseOK exec x = true :=
      fun x hx => List.mem_takeWhile_imp hx
    have hsplit : (t :: ts).takeWhile (caseOK exec) ++ tc :: rest = t :: ts := by
      rw [← hdw, List.takeWhile_append_dropWhile]
    have hrun := judgeLoop_first_fail exec (t :: ts).length
      ((t :: ts).takeWhile (caseOK exec)) tc rest 0 0 0 hpre hfail
    have hloop : judgeLoop exec (t :: ts).length 0 0 0 (t :: ts) =
        judgeLoop exec (t :: ts).length 0 0 0
          ((t :: ts).takeWhile (caseOK exec) ++ tc :: rest) := by
      rw [hsplit]
    rw [hloop, hrun]
    simp [List.sum_append]

/-- Two-case scenario for the execution-time witness: the second case fails
at runtime, so both cases are attempted. -/
def tcsC5 : List TestCase := [⟨"1", "a"⟩, ⟨"2", "b"⟩]

/-- Executor behaviour for the execution-time witness. -/
def execC5 : TestCase → RunnerResult := fun tc =>
  if tc.input_data == "1" then
    { success := true, output := some "a", execution_time := some (1/2) }
  else
    { success := false, error := some "boom", error_type := some "runtime_error" }

theorem execution_time_is_sum_of_attempted_witness :
    (runAllTestCases execC5 tcsC5).1.execution_time =
      (((runAllTestCases execC5 tcsC5).2).map
        fun tc => (runSingleTestCase (execC5 tc)).execution_time).sum :=
  execution_time_is_sum_of_attempted execC5 tcsC5 (by decide)

/-- C2: empty or all-whitespace stdin (after trimming) is rejected as
`invalid_input` for every language tag and source text, before any
compilation or execution is attempted — the result is a constant,
independent of the compile oracle and of the process outcome. -/
theorem run_empty_stdin_invalid_input (language code input_data : String)
    (time_limit : ℚ) (compile : String → Int × String) (proc : ProcResult)
    (h : pyStrip input_data = "") :
    SecureCodeRunner.run language code input_data time_limit compile proc =
      invalidInputResult := by
  rw [SecureCodeRunner.run, if_pos h]

theorem run_empty_stdin_invalid_input_witness :
    SecureCodeRunner.run "python" "print(1)" "   " 5 (fun _ => (0, ""))
      (.completed 0 "1" "" 0) = invalidInputResult :=
  run_empty_stdin_invalid_input "python" "print(1)" "   " 5 (fun _ => (0, ""))
    (.completed 0 "1" "" 0) (by decide)

/-- C3: the runner maps the backend result to exactly one outcome — exit
code 0 without timeout to `success` with trimmed stdout, a reported timeout
to `timeout` with the human-readable time-limit message, and any other
non-zero exit to `runtime_error` with the captured stderr, or the generic
message when stderr trims to empty. -/
theorem runPython_outcome_mapping (time_limit : ℚ) (rc : Int) (out err : String) (dt : ℚ) :
    (runPython time_limit (.completed 0 out err dt) =
      { success := true, output := some (pyStrip out), execution_time := some dt })
    ∧ (rc ≠ 0 → runPython time_limit (.completed rc out err dt) =
      { success := false,
        error := some (if pyStrip err = "" then "Runtime error occurred" else pyStrip err),
        error_type := some "runtime_error" })
    ∧ (runPython time_limit .timeoutExpired =
      { success := false,
        error := some ("⏰ Time Limit Exceeded: Execution took longer than "
          ++ toString time_limit ++ "s"),
        error_type := some "timeout" }) := by
  refine ⟨rfl, fun h => ?_, rfl⟩
  simp [runPython, mapRunProc, h]

theorem runPython_outcome_mapping_witness :
    runPython 5 (.completed 1 "out" "  " 2) =
      { success := false, error := some "Runtime error occurred",
        error_type := some "runtime_error" } :=
  ((runPython_outcome_mapping 5 1 "out" "  " 2).2.1 (by decide)).trans (by decide)

/-- C4 (amended): a backend-reported timeout always yields the `timeout`
outcome, which the judge maps to `Time Limit Exceeded`; but no elapsed time
is reported for such a run — the runner's timeout dict carries no
`execution_time` key and the judge records `0.000s` for the failing case. -/
theorem timeout_reported_without_elapsed_time (time_limit : ℚ) :
    (runPython time_limit .timeoutExpired).error_type = some "timeout"
    ∧ (runPython time_limit .timeoutExpired).execution_time = none
    ∧ (runSingleTestCase (runPython time_limit .timeoutExpired)).status = "Time Limit Exceeded"
    ∧ (runSingleTestCase (runPython time_limit .timeoutExpired)).execution_time = 0 :=
  ⟨rfl, rfl, rfl, rfl⟩

/-- C4 counterexample: at `time_limit = 5` a timed-out run is classified as
`timeout`, yet the reported elapsed time is `0` (the runner result has
none), which is not `≥ 5`. -/
theorem timeout_elapsed_claim_counterexample :
    (runPython 5 .timeoutExpired).error_type = some "timeout"
    ∧ (runPython 5 .timeoutExpired).execution_time = none
    ∧ ¬ ((runSingleTestCase (runPython 5 .timeoutExpired)).execution_time ≥ (5 : ℚ)) := by
  refine ⟨rfl, rfl, ?_⟩
  decide

/-- C7: the Java class name is derived by locating the first class
declaration (`findClassName`, the `re.search` on `class\s+(\w+)`); when no
declaration is recognisable the runner reports a `compilation_error`
without invoking the compiler (the result is independent of both oracles),
and when one is found the compiler is invoked on `{cls}.java`. -/
theorem java_class_name_derivation (time_limit : ℚ) (code : String)
    (compile : String → Int × String) (proc : ProcResult) :
    (findClassName code = none →
      runJava time_limit code compile proc =
        { success := false, error := some "🔴 Compilation Error: No class found in Java code",
          error_type := some "compilation_error" })
    ∧ (∀ cls, findClassName code = some cls →
        ((compile (cls ++ ".java")).1 ≠ 0 →
          runJava time_limit code compile proc =
            { success := false,
              error := some ("🔴 Compilation Error:\n" ++ (compile (cls ++ ".java")).2),
              error_type := some "compilation_error" })
        ∧ ((compile (cls ++ ".java")).1 = 0 →
          runJava time_limit code compile proc = mapRunProc time_limit proc)) := by
  refine ⟨fun h => by simp [runJava, h], fun cls h => ⟨fun hc => ?_, fun hc => ?_⟩⟩
  · simp [runJava, h, hc]
  · simp [runJava, h, hc]

theorem java_class_name_derivation_witness :
    runJava 5 "public static void main" (fun _ => (1, "err")) (.completed 0 "" "" 0) =
      { success := false, error := some "🔴 Compilation Error: No class found in Java code",
        error_type := some "compilation_error" }
    ∧ runJava 5 "public class Main {}" (fun _ => (0, "")) (.completed 0 "hi" "" 1) =
      { success := true, output := some "hi", execution_time := some 1 } := by
  constructor
  · exact (java_class_name_derivation 5 "public static void main"
      (fun _ => (1, "err")) (.completed 0 "" "" 0)).1 (by decide)
  · exact (((java_class_name_derivation 5 "public class Main {}"
      (fun _ => (0, "")) (.completed 0 "hi" "" 1)).2 "Main" (by decide)).2
      (by decide)).trans (by decide)

/-- C8: with zero test cases the orchestrator invokes no executor (the
attempted list is empty and the result is independent of the executor) and
writes a `Runtime Error` verdict with the descriptive no-test-cases
message. -/
theorem no_test_cases_runtime_error (exec : TestCase → RunnerResult) :
    runAllTestCases exec [] =
      ({ status := "Runtime Error", output := "",
         error := "No test cases found for this problem.",
         execution_time := 0, memory_used := 0,
         test_cases_passed := 0, test_cases_total := 0 }, []) := rfl

/-- C9: `judge` is a total function of the loop's outcome (the model of
"never raises past its own boundary"); on every outcome the submission is
saved with `judged_at` stamped, an exception is converted to a
`Runtime Error` verdict with the generic judging-system-error message, and
a normal return keeps the loop's terminal state. -/
theorem judge_always_terminal (outcome : JudgeOutcome) :
    (SecureCodeJudge.judge outcome).judged_at_set = true
    ∧ (SecureCodeJudge.judge outcome).saved = true
    ∧ (∀ mid msg, outcome = .exc mid msg →
        (SecureCodeJudge.judge outcome).state.status = "Runtime Error"
        ∧ (SecureCodeJudge.judge outcome).state.error =
            "An unexpected judging system error occurred: " ++ msg)
    ∧ (∀ s, outcome = .ok s → (SecureCodeJudge.judge outcome).state = s) := by
  cases outcome with
  | ok s =>
      refine ⟨rfl, rfl, ?_, ?_⟩
      · intro mid msg h
        cases h
      · intro s' h
        cases h
        rfl
  | exc mid msg =>
      refine ⟨rfl, rfl, ?_, ?_⟩
      · intro mid' msg' h
        cases h
        exact ⟨rfl, rfl⟩
      · intro s' h
        cases h

theorem judge_always_terminal_witness :
    (SecureCodeJudge.judge (.exc {} "boom")).state.status = "Runtime Error"
    ∧ (SecureCodeJudge.judge (.exc {} "boom")).state.error =
        "An unexpected judging system error occurred: boom"
    ∧ (SecureCodeJudge.judge (.exc {} "boom")).judged_at_set = true
    ∧ (SecureCodeJudge.judge (.exc {} "boom")).saved = true :=
  ⟨((judge_always_terminal (.exc {} "boom")).2.2.1 {} "boom" rfl).1,
   ((judge_always_terminal (.exc {} "boom")).2.2.1 {} "boom" rfl).2,
   (judge_always_terminal (.exc {} "boom")).1,
   (judge_always_terminal (.exc {} "boom")).2.1⟩

/-- C10: the empty-input check precedes language resolution — with stdin
trimming to empty the result is `invalid_input` even for an unknown
language tag, while with non-empty stdin an unknown tag yields a
`system_error` with the unsupported-language message. -/
theorem empty_input_check_precedes_language_resolution
    (language code input_data : String) (time_limit : ℚ)
    (compile : String → Int × String) (proc : ProcResult)
    (h : language ∉ ["python", "cpp", "java", "c"]) :
    (pyStrip input_data = "" →
      SecureCodeRunner.run language code input_data time_limit compile proc =
        invalidInputResult)
    ∧ (pyStrip input_data ≠ "" →
      SecureCodeRunner.run language code input_data time_limit compile proc =
        unsupportedLanguageResult language) := by
  simp only [List.mem_cons, List.not_mem_nil, or_false, not_or] at h
  obtain ⟨h1, h2, h3, h4⟩ := h
  constructor
  · intro he
    rw [SecureCodeRunner.run, if_pos he]
  · intro he
    rw [SecureCodeRunner.run, if_neg he, if_neg h1, if_neg h2, if_neg h3, if_neg h4]

theorem empty_input_check_precedes_language_resolution_witness :
    SecureCodeRunner.run "ruby" "puts 1" " " 5 (fun _ => (0, ""))
      (.completed 0 "" "" 0) = invalidInputResult
    ∧ SecureCodeRunner.run "ruby" "puts 1" "1" 5 (fun _ => (0, ""))
      (.completed 0 "" "" 0) = unsupportedLanguageResult "ruby" :=
  ⟨(empty_input_check_precedes_language_resolution "ruby" "puts 1" " " 5
      (fun _ => (0, "")) (.completed 0 "" "" 0) (by decide)).1 (by decide),
   (empty_input_check_precedes_language_resolution "ruby" "puts 1" "1" 5
      (fun _ => (0, "")) (.completed 0 "" "" 0) (by decide)).2 (by decide)⟩

/-- C6: evaluation of the judging pipeline at a test case whose stored
input is empty.  The executor classifies it `invalid_input`, the judge
writes the verdict `Invalid Input` to the submission status, and that
value (like `System Error`, the image of `system_error`) lies outside the
verdict vocabulary declared by `Submission.STATUS_CHOICES`. -/
theorem verdict_outside_status_choices :
    (SecureCodeRunner.run "python" "print(1)" "" 5 (fun _ => (0, ""))
      (.completed 0 "1" "" 0)).error_type = some "invalid_input"
    ∧ (runAllTestCases
        (fun tc => SecureCodeRunner.run "python" "print(1)" tc.input_data 5
          (fun _ => (0, "")) (.completed 0 "1" "" 0))
        [⟨"", "1"⟩]).1.status = "Invalid Input"
    ∧ "Invalid Input" ∉ STATUS_CHOICES
    ∧ "System Error" ∉ STATUS_CHOICES
    ∧ error_type_map "system_error" = "System Error" := by
  refine ⟨rfl, ?_, by decide, by decide, rfl⟩
  decide
